import Mathlib

/-!
Verification of the form-intake service in `src/form.py` (routes `submit_form`,
`reset_counter`, and the helpers `add_submission_to_excel`, `update_counter`,
`get_counter`).  The file-backed state (the Excel workbook of submissions and
the JSON counter file) is embedded as an explicit Lean state that every route
takes and returns; route handlers become pure functions returning the new state
together with the JSON response they produce.  Timestamps (`datetime.now()`)
are real-time effects and are left out of the stored record.
-/

namespace Form

/-- ASCII letter, the `[A-Za-z]` part of the name regex in `submit_form`. -/
def isAsciiLetter (c : Char) : Bool :=
  ('A' ≤ c && c ≤ 'Z') || ('a' ≤ c && c ≤ 'z')

/-- The characters matched by Python's `\s` in a `str` pattern without
`re.ASCII` (CPython's Unicode whitespace set), also the set stripped by
`str.strip()`. -/
def isPySpace (c : Char) : Bool :=
  c ∈ [' ', '\t', '\n', '\x0b', '\x0c', '\r',
       '\x1c', '\x1d', '\x1e', '\x1f', '\x85', '\xa0',
       ' ', ' ', ' ', ' ', ' ', ' ',
       ' ', ' ', ' ', ' ', ' ', ' ',
       ' ', ' ', ' ', ' ', '　']

/-- Python `str.strip()`: remove leading and trailing whitespace. -/
def pyStrip (s : String) : String :=
  String.mk (((s.toList.dropWhile isPySpace).reverse.dropWhile isPySpace).reverse)

/-- Python's `c in s` membership test of a character in a string. -/
def pyContains (s : String) (c : Char) : Bool :=
  s.toList.contains c

/-- Python's `$` assertion (no `re.MULTILINE`): succeeds at the end of the
string, or just before a newline that is the last character. -/
def dollarAt (rest : List Char) : Bool :=
  rest = [] || rest = ['\n']

/-- Backtracking match of `p+$` against the rest of the input: consume one
character of the class, then either assert `$` or keep consuming. -/
def plusDollar (p : Char → Bool) : List Char → Bool
  | [] => false
  | c :: rest => if p c then dollarAt rest || plusDollar p rest else false

/-- Match of `p{n}$` against the rest of the input: consume exactly `n`
characters of the class, then assert `$`. -/
def repsDollar (p : Char → Bool) : Nat → List Char → Bool
  | 0, rest => dollarAt rest
  | _ + 1, [] => false
  | n + 1, c :: rest => p c && repsDollar p n rest

/-- `re.compile(r'^[A-Za-z\s]+$').match(s)` succeeds (as a Bool).  `re.match`
anchors at the start, so `^` is redundant and the whole pattern is
`[A-Za-z\s]+` followed by `$`. -/
def re_match_name (s : String) : Bool :=
  plusDollar (fun c => isAsciiLetter c || isPySpace c) s.toList

/-- `re.compile(r'^[0-9]{8}$').match(s)` succeeds (as a Bool). -/
def re_match_phone (s : String) : Bool :=
  repsDollar Char.isDigit 8 s.toList

/-- The counter persisted in `counter.json` as read by `get_counter`. -/
structure Counter where
  count : Nat
  max_submissions : Nat
  deriving DecidableEq, Repr

/-- `update_counter(count)`: the counter written back always carries
`max_submissions = 10`. -/
def update_counter (count : Nat) : Counter :=
  { count := count, max_submissions := 10 }

/-- The counter object serialized into JSON responses. -/
structure CounterSnapshot where
  count : Nat
  max_submissions : Nat
  submissions_remaining : Int
  is_limit_reached : Bool
  deriving DecidableEq, Repr

/-- One data row of the submissions workbook (`submitted_at`, a wall-clock
timestamp, is not modelled). -/
structure Record where
  id : Nat
  name : String
  phone : String
  email : String
  school_name : String
  selected_robots : String
  deriving DecidableEq, Repr

/-- The whole persistent state: the workbook's data rows plus the counter. -/
structure FormState where
  records : List Record
  counter : Counter
  deriving DecidableEq, Repr

/-- The JSON payload of a submit request; `none` in a field models an absent
key (Python `data.get(field)` returning `None`). -/
structure Payload where
  name : Option String
  phone : Option String
  email : Option String
  school_name : Option String
  selected_robots : Option (List String)
  deriving DecidableEq, Repr

/-- Python truthiness of `data.get(field)` for a string field: present and
non-empty. -/
def strPresent : Option String → Bool
  | none => false
  | some s => s ≠ ""

/-- Python truthiness of `data.get(field)` for the list field: present and
non-empty. -/
def listPresent : Option (List String) → Bool
  | none => false
  | some l => l ≠ []

/-- `allowed_robots` in `submit_form`. -/
def allowed_robots : List String :=
  ["Cleaning Robot", "Security Robot", "Delivery Robot"]

/-- `add_submission_to_excel`: `next_row = ws.max_row + 1` where `max_row`
counts the header row plus the data rows, and `submission_id = next_row - 1`;
the robot list is joined with a comma-space; the row is appended.  Returns the
new row list and the assigned id. -/
def add_submission_to_excel (records : List Record)
    (name phone email school_name : String) (selected_robots : List String) :
    List Record × Nat :=
  let next_row := (records.length + 1) + 1
  let submission_id := next_row - 1
  let robots_str := String.intercalate ", " selected_robots
  (records ++ [{ id := submission_id, name := name, phone := phone,
                 email := email, school_name := school_name,
                 selected_robots := robots_str }],
   submission_id)

/-- The possible JSON responses of the `/submit` route. -/
inductive SubmitResult where
  | quotaExceeded (counter : CounterSnapshot)
  | noData
  | missingField (field : String)
  | invalidName
  | invalidPhone
  | invalidEmail
  | emptyRobots
  | invalidRobotType (robot : String)
  | success (id : Nat) (counter : CounterSnapshot)
  deriving DecidableEq, Repr

/-- Whether a submit response is the 201 success response. -/
def SubmitResult.isSuccess : SubmitResult → Bool
  | .success _ _ => true
  | _ => false

/-- `submit_form` in `src/form.py`, lines 100-207, with the file-backed state
made explicit.  `data = none` models `request.json` being absent/null.  The
checks appear in source order: quota, data, the presence loop over
`['name', 'phone', 'school_name', 'selected_robots']`, the name regex, the
phone regex, the email rule, the robot-list rules; on success the row is
appended and the incremented counter is written back via `update_counter`.
(The `isinstance(selected_robots, list)` half of the list check always holds
here because the field is typed as a list.) -/
def submit_form (st : FormState) (data : Option Payload) :
    FormState × SubmitResult :=
  let count := st.counter.count
  let max_submissions := st.counter.max_submissions
  if count ≥ max_submissions then
    (st, .quotaExceeded
      { count := count, max_submissions := max_submissions,
        submissions_remaining := (max_submissions : Int) - (count : Int),
        is_limit_reached := true })
  else
    match data with
    | none => (st, .noData)
    | some d =>
      if ¬ strPresent d.name then (st, .missingField "name")
      else if ¬ strPresent d.phone then (st, .missingField "phone")
      else if ¬ strPresent d.school_name then (st, .missingField "school_name")
      else if ¬ listPresent d.selected_robots then
        (st, .missingField "selected_robots")
      else if ¬ re_match_name (d.name.getD "") then (st, .invalidName)
      else if ¬ re_match_phone (d.phone.getD "") then (st, .invalidPhone)
      else
        let email := pyStrip (d.email.getD "")
        if email ≠ "" ∧ ¬ pyContains email '@' then (st, .invalidEmail)
        else
          let selected_robots := d.selected_robots.getD []
          if selected_robots.length = 0 then (st, .emptyRobots)
          else
            match selected_robots.find?
                (fun robot => ! allowed_robots.contains robot) with
            | some robot => (st, .invalidRobotType robot)
            | none =>
              let r := add_submission_to_excel st.records (d.name.getD "")
                (d.phone.getD "") (d.email.getD "") (d.school_name.getD "")
                selected_robots
              let count2 := count + 1
              ({ records := r.1, counter := update_counter count2 },
               .success r.2
                 { count := count2, max_submissions := max_submissions,
                   submissions_remaining :=
                     (max_submissions : Int) - (count2 : Int),
                   is_limit_reached := decide (count2 ≥ max_submissions) })

/-- The JSON payload of a reset request; the outer `Option` is `request.get_json()`
being absent, the inner one is the `'password'` key being absent. -/
structure ResetPayload where
  password : Option String
  deriving DecidableEq, Repr

/-- The possible JSON responses of the `/reset` route. -/
inductive ResetResult where
  | missingPassword
  | authError
  | success (counter : CounterSnapshot)
  deriving DecidableEq, Repr

/-- The `message` string of each reset response. -/
def resetMessage : ResetResult → String
  | .missingPassword => "Password is required"
  | .authError => "Incorrect password"
  | .success _ => "Counter reset successfully!"

/-- The HTTP status of each reset response. -/
def resetStatus : ResetResult → Nat
  | .missingPassword => 400
  | .authError => 401
  | .success _ => 200

/-- `reset_counter` in `src/form.py`, lines 237-273, acting on the counter
state.  Missing body or missing `'password'` key gives the 400 response; a
supplied password different from the fixed secret gives the 401 response and
leaves the counter alone; the correct secret writes `update_counter(0)` and
returns the hard-coded zeroed snapshot. -/
def reset_counter (c : Counter) (data : Option ResetPayload) :
    Counter × ResetResult :=
  match data with
  | none => (c, .missingPassword)
  | some d =>
    match d.password with
    | none => (c, .missingPassword)
    | some pw =>
      if pw ≠ "25485650" then (c, .authError)
      else
        (update_counter 0,
         .success { count := 0, max_submissions := 10,
                    submissions_remaining := 10, is_limit_reached := false })

/-- The `/reset` route seen at the level of the whole persistent state: it
reads and writes only the counter file, never the workbook. -/
def reset_route (st : FormState) (data : Option ResetPayload) :
    FormState × ResetResult :=
  let r := reset_counter st.counter data
  ({ records := st.records, counter := r.1 }, r.2)

/-- Sequentially run `/submit` on a list of payloads, collecting responses. -/
def submitAll (st : FormState) : List Payload → FormState × List SubmitResult
  | [] => (st, [])
  | p :: ps =>
    let r := submit_form st (some p)
    let rest := submitAll r.1 ps
    (rest.1, r.2 :: rest.2)

/-- A valid submit payload used in concrete scenarios, varying only the name. -/
def mkPayload (n : String) : Payload :=
  { name := some n, phone := some "12345678", email := none,
    school_name := some "School", selected_robots := some ["Cleaning Robot"] }

/-- Ten distinct names, all matching the name regex. -/
def tenNames : List String :=
  ["Aa", "Ab", "Ac", "Ad", "Ae", "Af", "Ag", "Ah", "Ai", "Aj"]

/-- The fresh state: empty workbook, counter at the defaults of `get_counter`. -/
def freshState : FormState :=
  { records := [], counter := { count := 0, max_submissions := 10 } }

/-- A state with ten stored records and the quota gate closed. -/
def fullState : FormState :=
  { records := (List.range 10).map (fun i =>
      { id := i + 1, name := "Aa", phone := "12345678", email := "",
        school_name := "School", selected_robots := "Cleaning Robot" }),
    counter := { count := 10, max_submissions := 10 } }

/-! ## Characterizations of the two compiled regexes -/

/-- For a class containing the newline, `p+$` matches exactly the non-empty
all-class strings (the trailing-newline case of `$` adds nothing new). -/
lemma plusDollar_iff (p : Char → Bool) (hnl : p '\n' = true) (cs : List Char) :
    plusDollar p cs = true ↔ cs ≠ [] ∧ cs.all p := by
  induction cs with
  | nil => simp [plusDollar]
  | cons c rest ih =>
    by_cases hc : p c = true
    · have hD : dollarAt rest = true ↔ (rest = [] ∨ rest = ['\n']) := by
        simp [dollarAt]
      have hstep : plusDollar p (c :: rest) = (dollarAt rest || plusDollar p rest) := by
        simp [plusDollar, hc]
      rw [hstep]
      simp only [Bool.or_eq_true, List.all_cons, Bool.and_eq_true, ne_eq,
        List.cons_ne_nil, not_false_eq_true, true_and, hc]
      constructor
      · rintro (h | h)
        · rcases hD.mp h with rfl | rfl
          · simp
          · simp [hnl]
        · exact (ih.mp h).2
      · intro hall
        cases rest with
        | nil => exact Or.inl (hD.mpr (Or.inl rfl))
        | cons c2 r2 => exact Or.inr (ih.mpr ⟨List.cons_ne_nil _ _, hall⟩)
    · simp [plusDollar, hc, List.all_cons]

/-- `p{n}$` matches exactly: `n` class characters, or `n` class characters
followed by a single newline (Python's `$` before a trailing newline). -/
lemma repsDollar_iff (p : Char → Bool) :
    ∀ (n : Nat) (cs : List Char), repsDollar p n cs = true ↔
      ((cs.length = n ∧ cs.all p) ∨
       (cs.length = n + 1 ∧ (cs.take n).all p ∧ cs.drop n = ['\n'])) := by
  intro n
  induction n with
  | zero =>
    intro cs
    constructor
    · intro h
      have h2 : cs = [] ∨ cs = ['\n'] := by simpa [repsDollar, dollarAt] using h
      rcases h2 with rfl | rfl
      · exact Or.inl ⟨rfl, rfl⟩
      · exact Or.inr ⟨rfl, rfl, rfl⟩
    · rintro (⟨hl, -⟩ | ⟨-, -, hd⟩)
      · have h0 : cs = [] := List.length_eq_zero.mp hl
        subst h0; simp [repsDollar, dollarAt]
      · have h1 : cs = ['\n'] := by simpa using hd
        subst h1; simp [repsDollar, dollarAt]
  | succ n ih =>
    intro cs
    cases cs with
    | nil =>
      simp [repsDollar]
    | cons c r =>
      simp only [repsDollar, Bool.and_eq_true, ih r, List.length_cons,
        List.take_succ_cons, List.drop_succ_cons, List.all_cons,
        Nat.succ.injEq, Nat.add_right_cancel_iff]
      constructor
      · rintro ⟨hc, h | h⟩
        · exact Or.inl ⟨by omega, hc, h.2⟩
        · exact Or.inr ⟨by omega, ⟨hc, h.2.1⟩, h.2.2⟩
      · rintro (⟨hl, hc, h⟩ | ⟨hl, ⟨hc, h1⟩, h2⟩)
        · exact ⟨hc, Or.inl ⟨by omega, h⟩⟩
        · exact ⟨hc, Or.inr ⟨by omega, h1, h2⟩⟩

/-- The name regex accepts exactly the non-empty strings made of ASCII
letters and `\s`-whitespace. -/
lemma re_match_name_iff (s : String) :
    re_match_name s = true ↔
      s.toList ≠ [] ∧ s.toList.all (fun c => isAsciiLetter c || isPySpace c) :=
  plusDollar_iff _ (by decide) _

/-- The phone regex accepts exactly: eight ASCII digits, or eight ASCII
digits followed by a single trailing newline. -/
lemma re_match_phone_iff (s : String) :
    re_match_phone s = true ↔
      ((s.toList.length = 8 ∧ s.toList.all Char.isDigit) ∨
       (s.toList.length = 9 ∧ (s.toList.take 8).all Char.isDigit ∧
        s.toList.drop 8 = ['\n'])) :=
  repsDollar_iff _ 8 _

/-- A string accepted by the name regex is non-empty. -/
lemma re_match_name_ne_empty {s : String} (h : re_match_name s = true) :
    s ≠ "" := by
  intro he
  subst he
  exact absurd ((re_match_name_iff "").mp h).1 (by simp)

/-- A string accepted by the phone regex is non-empty. -/
lemma re_match_phone_ne_empty {s : String} (h : re_match_phone s = true) :
    s ≠ "" := by
  intro he
  subst he
  rcases (re_match_phone_iff "").mp h with ⟨h8, -⟩ | ⟨h9, -⟩
  · simp at h8
  · simp at h9

/-! ## The accepted-submission equation and inversion lemmas -/

/-- When the gate is open and every field check passes, `submit_form` appends
exactly one row, with id one more than the stored row count, the robot list
joined by a comma-space, and the raw (unstripped) email; the counter is
written back incremented by one. -/
lemma submit_form_success (st : FormState) (p : Payload)
    (name phone school : String) (robots : List String)
    (hq : st.counter.count < st.counter.max_submissions)
    (hn : p.name = some name) (hp : p.phone = some phone)
    (hs : p.school_name = some school) (hr : p.selected_robots = some robots)
    (hnm : re_match_name name = true)
    (hpm : re_match_phone phone = true)
    (hs0 : school ≠ "")
    (he : pyStrip (p.email.getD "") = "" ∨
          pyContains (pyStrip (p.email.getD "")) '@' = true)
    (hr0 : robots ≠ [])
    (hra : ∀ r ∈ robots, allowed_robots.contains r = true) :
    submit_form st (some p) =
      ({ records := st.records ++
           [{ id := st.records.length + 1, name := name, phone := phone,
              email := p.email.getD "", school_name := school,
              selected_robots := String.intercalate ", " robots }],
         counter := update_counter (st.counter.count + 1) },
       .success (st.records.length + 1)
         { count := st.counter.count + 1,
           max_submissions := st.counter.max_submissions,
           submissions_remaining :=
             (st.counter.max_submissions : Int) -
               ((st.counter.count + 1 : Nat) : Int),
           is_limit_reached :=
             decide (st.counter.count + 1 ≥ st.counter.max_submissions) }) := by
  obtain ⟨pn, pp, pe, ps, pr⟩ := p
  obtain rfl : pn = some name := hn
  obtain rfl : pp = some phone := hp
  obtain rfl : ps = some school := hs
  obtain rfl : pr = some robots := hr
  have hq2 : ¬ st.counter.count ≥ st.counter.max_submissions := not_le.mpr hq
  have hname0 : name ≠ "" := re_match_name_ne_empty hnm
  have hphone0 : phone ≠ "" := re_match_phone_ne_empty hpm
  have h1 : strPresent (some name) = true := by simp [strPresent, hname0]
  have h2 : strPresent (some phone) = true := by simp [strPresent, hphone0]
  have h3 : strPresent (some school) = true := by simp [strPresent, hs0]
  have h4 : listPresent (some robots) = true := by simp [listPresent, hr0]
  have h5 : robots.find? (fun robot => ! allowed_robots.contains robot) = none :=
    List.find?_eq_none.mpr (fun x hx => by
      simp only [hra x hx, Bool.not_true]
      simp)
  have h6 : ¬ (pyStrip (Option.getD pe "") ≠ "" ∧
      pyContains (pyStrip (Option.getD pe "")) '@' = false) := by
    rcases he with he | he
    · intro hcon; exact hcon.1 he
    · intro hcon; rw [he] at hcon; exact Bool.noConfusion hcon.2
  have h7 : ¬ robots.length = 0 := by
    simpa [List.length_eq_zero] using hr0
  simp only [submit_form, hq2, if_false, Option.getD_some, h1, h2, h3, h4,
    hnm, hpm, h5, h7, not_true, not_false_eq_true, if_true,
    ite_false, ite_true, Bool.not_eq_true, add_submission_to_excel]
  rw [if_neg h6]
  simp

/-- On any non-success response, `submit_form` leaves the state untouched. -/
lemma submit_form_state_or_success (st : FormState) (data : Option Payload) :
    (submit_form st data).1 = st ∨ (submit_form st data).2.isSuccess = true := by
  cases data with
  | none =>
    by_cases hq : st.counter.count ≥ st.counter.max_submissions <;>
      simp [submit_form, hq, SubmitResult.isSuccess]
  | some d =>
    by_cases hq : st.counter.count ≥ st.counter.max_submissions
    · simp [submit_form, hq, SubmitResult.isSuccess]
    · simp only [submit_form, hq, if_false]
      repeat' split
      all_goals simp [SubmitResult.isSuccess]

/-- A successful `submit_form` assigns the id from the stored row count
alone: id = number of already-stored rows + 1, whatever the counter says. -/
lemma submit_form_success_id (st : FormState) (data : Option Payload)
    (id : Nat) (snap : CounterSnapshot)
    (h : (submit_form st data).2 = .success id snap) :
    id = st.records.length + 1 := by
  cases data with
  | none =>
    by_cases hq : st.counter.count ≥ st.counter.max_submissions <;>
      simp [submit_form, hq] at h
  | some d =>
    by_cases hq : st.counter.count ≥ st.counter.max_submissions
    · simp [submit_form, hq] at h
    · simp only [submit_form, hq, if_false] at h
      repeat' split at h
      all_goals first
      | (simp only [add_submission_to_excel, SubmitResult.success.injEq] at h
         obtain ⟨h1, -⟩ := h
         omega)
      | simp at h

/-- Once the quota gate is open and all four required fields are present, the
submit route is the remaining chain: name regex, phone regex, email rule,
robot enumeration, then the append-and-increment. -/
lemma submit_form_unfold_checks (st : FormState) (p : Payload)
    (name phone school : String) (robots : List String)
    (hq : st.counter.count < st.counter.max_submissions)
    (hn : p.name = some name) (hp : p.phone = some phone)
    (hs : p.school_name = some school) (hr : p.selected_robots = some robots)
    (hname0 : name ≠ "") (hphone0 : phone ≠ "")
    (hs0 : school ≠ "") (hr0 : robots ≠ []) :
    submit_form st (some p) =
      (if ¬ re_match_name name = true then (st, .invalidName)
       else if ¬ re_match_phone phone = true then (st, .invalidPhone)
       else if pyStrip (p.email.getD "") ≠ "" ∧
           ¬ pyContains (pyStrip (p.email.getD "")) '@' = true then
         (st, .invalidEmail)
       else
         match robots.find? (fun robot => ! allowed_robots.contains robot) with
         | some robot => (st, .invalidRobotType robot)
         | none =>
           ({ records := st.records ++
                [{ id := st.records.length + 1, name := name, phone := phone,
                   email := p.email.getD "", school_name := school,
                   selected_robots := String.intercalate ", " robots }],
              counter := update_counter (st.counter.count + 1) },
            .success (st.records.length + 1)
              { count := st.counter.count + 1,
                max_submissions := st.counter.max_submissions,
                submissions_remaining :=
                  (st.counter.max_submissions : Int) -
                    ((st.counter.count + 1 : Nat) : Int),
                is_limit_reached :=
                  decide (st.counter.count + 1 ≥
                    st.counter.max_submissions) })) := by
  obtain ⟨pn, pp, pe, ps, pr⟩ := p
  obtain rfl : pn = some name := hn
  obtain rfl : pp = some phone := hp
  obtain rfl : ps = some school := hs
  obtain rfl : pr = some robots := hr
  have hq2 : ¬ st.counter.count ≥ st.counter.max_submissions := not_le.mpr hq
  have h1 : strPresent (some name) = true := by simp [strPresent, hname0]
  have h2 : strPresent (some phone) = true := by simp [strPresent, hphone0]
  have h3 : strPresent (some school) = true := by simp [strPresent, hs0]
  have h4 : listPresent (some robots) = true := by simp [listPresent, hr0]
  have h7 : ¬ robots.length = 0 := by
    simpa [List.length_eq_zero] using hr0
  simp only [submit_form, hq2, if_false, Option.getD_some, h1, h2, h3, h4, h7,
    not_true, not_false_eq_true, ite_true, ite_false, Bool.not_eq_true,
    add_submission_to_excel]
  repeat' split
  all_goals rfl

/-- The list of robot choices is fully inside the allowed enumeration exactly
when the scan for an offending element comes up empty. -/
lemma find?_not_allowed_none_iff (robots : List String) :
    (∀ r ∈ robots, r ∈ allowed_robots) ↔
      robots.find? (fun x => ! allowed_robots.contains x) = none := by
  rw [List.find?_eq_none]
  constructor
  · intro hall x hx
    simp [hall x hx]
  · intro hnone x hx
    have h1 := hnone x hx
    simpa using h1

/-! ## Claims -/

/-- C1: whenever the counter's count is at least its max when `/submit` is
called, the call fails with the quota-exceeded response carrying the current
counter snapshot, for every request body whatsoever (absent, invalid or
valid): the quota check runs before the body is even read, so it is the error
seen even when the payload is also invalid. -/
theorem C1_quota_check_first (st : FormState) (data : Option Payload)
    (h : st.counter.count ≥ st.counter.max_submissions) :
    submit_form st data =
      (st, .quotaExceeded
        { count := st.counter.count,
          max_submissions := st.counter.max_submissions,
          submissions_remaining :=
            (st.counter.max_submissions : Int) - (st.counter.count : Int),
          is_limit_reached := true }) := by
  cases data <;> simp [submit_form, h]

/-- Witness for C1: a full counter (10 of 10) rejects even a valid payload
with the quota response. -/
theorem C1_witness :
    submit_form fullState (some (mkPayload "Aa")) =
      (fullState, .quotaExceeded
        { count := 10, max_submissions := 10, submissions_remaining := 0,
          is_limit_reached := true }) := by
  have h := C1_quota_check_first fullState (some (mkPayload "Aa")) (by decide)
  simpa [fullState] using h

/-- C2: a valid payload submitted while count < max is accepted: the id is the
current number of persisted records plus one (hence ids are strictly
increasing from 1 across successive accepted submissions), the stored row
joins `selectedTypes` with a comma-space, and the counter's count grows by
exactly one. -/
theorem C2_accepted_submission (st : FormState) (p : Payload)
    (name phone school : String) (robots : List String)
    (hq : st.counter.count < st.counter.max_submissions)
    (hn : p.name = some name) (hp : p.phone = some phone)
    (hs : p.school_name = some school) (hr : p.selected_robots = some robots)
    (hnm : re_match_name name = true)
    (hpm : re_match_phone phone = true)
    (hs0 : school ≠ "")
    (he : pyStrip (p.email.getD "") = "" ∨
          pyContains (pyStrip (p.email.getD "")) '@' = true)
    (hr0 : robots ≠ [])
    (hra : ∀ r ∈ robots, allowed_robots.contains r = true) :
    submit_form st (some p) =
      ({ records := st.records ++
           [{ id := st.records.length + 1, name := name, phone := phone,
              email := p.email.getD "", school_name := school,
              selected_robots := String.intercalate ", " robots }],
         counter := { count := st.counter.count + 1, max_submissions := 10 } },
       .success (st.records.length + 1)
         { count := st.counter.count + 1,
           max_submissions := st.counter.max_submissions,
           submissions_remaining :=
             (st.counter.max_submissions : Int) -
               ((st.counter.count + 1 : Nat) : Int),
           is_limit_reached :=
             decide (st.counter.count + 1 ≥ st.counter.max_submissions) }) :=
  submit_form_success st p name phone school robots hq hn hp hs hr hnm hpm hs0
    he hr0 hra

/-- Witness for C2: the first accepted submission in a fresh state gets id 1
and the counter moves from 0 to 1. -/
theorem C2_witness :
    submit_form freshState (some (mkPayload "Aa")) =
      ({ records := [{ id := 1, name := "Aa", phone := "12345678", email := "",
                       school_name := "School",
                       selected_robots := "Cleaning Robot" }],
         counter := { count := 1, max_submissions := 10 } },
       .success 1 { count := 1, max_submissions := 10,
                    submissions_remaining := 9, is_limit_reached := false }) := by
  rw [C2_accepted_submission freshState (mkPayload "Aa") "Aa" "12345678"
    "School" ["Cleaning Robot"] (by decide) rfl rfl rfl rfl (by decide)
    (by decide) (by decide) (Or.inl (by decide)) (by decide) (by decide)]
  rfl

/-- C3: reset with the fixed secret zeroes the count, leaves the max at its
fixed value of 10, and reopens the gate (count < max afterwards) whatever the
prior count was; reset with any other supplied password leaves the counter
unchanged and fails with the auth error. -/
theorem C3_reset_password (c : Counter) (pw : String)
    (hmax : c.max_submissions = 10) :
    (reset_counter c (some { password := some "25485650" }) =
       (update_counter 0,
        .success { count := 0, max_submissions := 10,
                   submissions_remaining := 10, is_limit_reached := false }) ∧
     (update_counter 0).count = 0 ∧
     (update_counter 0).max_submissions = c.max_submissions ∧
     (update_counter 0).count < (update_counter 0).max_submissions) ∧
    (pw ≠ "25485650" →
      reset_counter c (some { password := some pw }) = (c, .authError)) := by
  refine ⟨⟨rfl, rfl, by simp [update_counter, hmax], by simp [update_counter]⟩,
    fun hpw => ?_⟩
  simp [reset_counter, hpw]

/-- Witness for C3: resetting a counter at 7 of 10 with the secret zeroes it;
resetting it with a wrong password leaves it at 7 and fails. -/
theorem C3_witness :
    reset_counter { count := 7, max_submissions := 10 }
        (some { password := some "25485650" }) =
      ({ count := 0, max_submissions := 10 },
       .success { count := 0, max_submissions := 10,
                  submissions_remaining := 10, is_limit_reached := false }) ∧
    reset_counter { count := 7, max_submissions := 10 }
        (some { password := some "wrong" }) =
      ({ count := 7, max_submissions := 10 }, .authError) := by
  have h := C3_reset_password { count := 7, max_submissions := 10 } "wrong" rfl
  exact ⟨h.1.1, h.2 (by decide)⟩

/-- C4: a failed submit never changes the state (no row appended, counter
untouched); and concretely, submitting ten distinct valid payloads from a
fresh state succeeds every time, the tenth response reports the limit
reached, and an eleventh submit fails with the quota response leaving the
state as it was. -/
theorem C4_no_partial_success :
    (∀ (st : FormState) (data : Option Payload),
        (submit_form st data).2.isSuccess = false →
        (submit_form st data).1 = st) ∧
    ((submitAll freshState (tenNames.map mkPayload)).1.counter.count = 10 ∧
     (submitAll freshState (tenNames.map mkPayload)).1.records.length = 10 ∧
     (∀ r ∈ (submitAll freshState (tenNames.map mkPayload)).2,
        r.isSuccess = true) ∧
     (submitAll freshState (tenNames.map mkPayload)).2.getLast? =
       some (.success 10 { count := 10, max_submissions := 10,
                           submissions_remaining := 0,
                           is_limit_reached := true }) ∧
     submit_form (submitAll freshState (tenNames.map mkPayload)).1
         (some (mkPayload "Ak")) =
       ((submitAll freshState (tenNames.map mkPayload)).1,
        .quotaExceeded { count := 10, max_submissions := 10,
                         submissions_remaining := 0,
                         is_limit_reached := true })) := by
  constructor
  · intro st data h
    rcases submit_form_state_or_success st data with h1 | h1
    · exact h1
    · rw [h1] at h
      exact absurd h (by simp)
  · decide

/-- Witness for C4: an over-quota submit leaves the full state untouched. -/
theorem C4_witness :
    (submit_form fullState (some (mkPayload "Aa"))).1 = fullState :=
  C4_no_partial_success.1 fullState (some (mkPayload "Aa")) (by decide)

/-- C5: for a payload passing the quota and the other field checks, the
robot-type field is accepted exactly when it is a non-empty list all of whose
elements are in the fixed enumeration; the first element outside it fails
with the invalid-robot-type error carrying that value; and an empty list is
rejected already at the presence check as a missing field. -/
theorem C5_selected_types (st : FormState) (p : Payload)
    (name phone school : String) (robots : List String)
    (hq : st.counter.count < st.counter.max_submissions)
    (hn : p.name = some name) (hp : p.phone = some phone)
    (hs : p.school_name = some school) (hr : p.selected_robots = some robots)
    (hnm : re_match_name name = true) (hpm : re_match_phone phone = true)
    (hs0 : school ≠ "")
    (he : pyStrip (p.email.getD "") = "" ∨
          pyContains (pyStrip (p.email.getD "")) '@' = true) :
    (robots = [] →
       submit_form st (some p) = (st, .missingField "selected_robots")) ∧
    ((submit_form st (some p)).2.isSuccess = true ↔
       robots ≠ [] ∧ ∀ r ∈ robots, r ∈ allowed_robots) ∧
    (∀ r, robots.find? (fun x => ! allowed_robots.contains x) = some r →
       submit_form st (some p) = (st, .invalidRobotType r)) := by
  have hname0 : name ≠ "" := re_match_name_ne_empty hnm
  have hphone0 : phone ≠ "" := re_match_phone_ne_empty hpm
  have h6 : ¬ (pyStrip (p.email.getD "") ≠ "" ∧
      ¬ pyContains (pyStrip (p.email.getD "")) '@' = true) := by
    rcases he with he | he
    · intro hcon; exact hcon.1 he
    · intro hcon; exact hcon.2 he
  have hmiss : robots = [] →
      submit_form st (some p) = (st, .missingField "selected_robots") := by
    intro hnil
    subst hnil
    obtain ⟨pn, pp, pe, ps, pr⟩ := p
    obtain rfl : pn = some name := hn
    obtain rfl : pp = some phone := hp
    obtain rfl : ps = some school := hs
    obtain rfl : pr = some [] := hr
    have hq2 : ¬ st.counter.count ≥ st.counter.max_submissions := not_le.mpr hq
    have h1 : strPresent (some name) = true := by simp [strPresent, hname0]
    have h2 : strPresent (some phone) = true := by simp [strPresent, hphone0]
    have h3 : strPresent (some school) = true := by simp [strPresent, hs0]
    simp [submit_form, hq2, h1, h2, h3, listPresent]
  refine ⟨hmiss, ?_, ?_⟩
  · by_cases hr0 : robots = []
    · rw [hmiss hr0]
      simp [SubmitResult.isSuccess, hr0]
    · rw [submit_form_unfold_checks st p name phone school robots hq hn hp hs
        hr hname0 hphone0 hs0 hr0]
      rw [if_neg (not_not_intro hnm), if_neg (not_not_intro hpm), if_neg h6]
      cases hfind : robots.find? (fun x => ! allowed_robots.contains x) with
      | some r =>
        simp only [hfind, SubmitResult.isSuccess]
        constructor
        · intro h10
          exact absurd h10 (by simp)
        · rintro ⟨-, hall⟩
          rw [find?_not_allowed_none_iff, hfind] at hall
          exact absurd hall (by simp)
      | none =>
        simp only [hfind, SubmitResult.isSuccess]
        exact iff_of_true trivial ⟨hr0, (find?_not_allowed_none_iff robots).mpr hfind⟩
  · intro r hfind
    have hr0 : robots ≠ [] := by
      intro hnil
      subst hnil
      simp [List.find?] at hfind
    rw [submit_form_unfold_checks st p name phone school robots hq hn hp hs
      hr hname0 hphone0 hs0 hr0]
    rw [if_neg (not_not_intro hnm), if_neg (not_not_intro hpm), if_neg h6,
      hfind]

/-- Witness for C5: one Cleaning Robot is accepted; a Flying Robot fails with
the invalid-robot-type error; an empty list fails as a missing field. -/
theorem C5_witness :
    (submit_form freshState (some (mkPayload "Aa"))).2.isSuccess = true ∧
    submit_form freshState
        (some { mkPayload "Aa" with selected_robots := some ["Flying Robot"] }) =
      (freshState, .invalidRobotType "Flying Robot") ∧
    submit_form freshState
        (some { mkPayload "Aa" with selected_robots := some [] }) =
      (freshState, .missingField "selected_robots") := by
  refine ⟨?_, ?_, ?_⟩
  · exact (C5_selected_types freshState (mkPayload "Aa") "Aa" "12345678"
      "School" ["Cleaning Robot"] (by decide) rfl rfl rfl rfl (by decide)
      (by decide) (by decide) (Or.inl (by decide))).2.1.mpr (by decide)
  · exact (C5_selected_types freshState
      { mkPayload "Aa" with selected_robots := some ["Flying Robot"] }
      "Aa" "12345678" "School" ["Flying Robot"] (by decide) rfl rfl rfl rfl
      (by decide) (by decide) (by decide)
      (Or.inl (by decide))).2.2 "Flying Robot" (by decide)
  · exact (C5_selected_types freshState
      { mkPayload "Aa" with selected_robots := some [] }
      "Aa" "12345678" "School" [] (by decide) rfl rfl rfl rfl
      (by decide) (by decide) (by decide) (Or.inl (by decide))).1 rfl

/-- Refutation of C6 as stated: the phone string of nine characters
`"12345678\n"` is not eight ASCII digits, yet the submit is accepted, because
Python's `$` also matches just before a trailing newline. -/
theorem C6_counterexample :
    (submit_form freshState
        (some { mkPayload "Aa" with phone := some "12345678\n" })).2 =
      .success 1 { count := 1, max_submissions := 10,
                   submissions_remaining := 9, is_limit_reached := false } ∧
    ¬ (("12345678\n" : String).toList.length = 8 ∧
       ("12345678\n" : String).toList.all Char.isDigit) := by
  exact ⟨by decide, by decide⟩

/-- C6 as amended: for a payload passing the earlier checks, the phone field
fails with the invalid-phone error exactly when it is not (eight ASCII
digits, optionally followed by one trailing newline); and an invalid-phone
response leaves the state untouched. -/
theorem C6_phone_amended (st : FormState) (p : Payload)
    (name phone school : String) (robots : List String)
    (hq : st.counter.count < st.counter.max_submissions)
    (hn : p.name = some name) (hp : p.phone = some phone)
    (hs : p.school_name = some school) (hr : p.selected_robots = some robots)
    (hnm : re_match_name name = true)
    (hphone0 : phone ≠ "") (hs0 : school ≠ "") (hr0 : robots ≠ []) :
    ((submit_form st (some p)).2 = .invalidPhone ↔
      ¬ ((phone.toList.length = 8 ∧ phone.toList.all Char.isDigit) ∨
         (phone.toList.length = 9 ∧ (phone.toList.take 8).all Char.isDigit ∧
          phone.toList.drop 8 = ['\n']))) ∧
    ((submit_form st (some p)).2 = .invalidPhone →
      (submit_form st (some p)).1 = st) := by
  have hname0 : name ≠ "" := re_match_name_ne_empty hnm
  have hkey : (submit_form st (some p)).2 = .invalidPhone ↔
      ¬ re_match_phone phone = true := by
    rw [submit_form_unfold_checks st p name phone school robots hq hn hp hs
      hr hname0 hphone0 hs0 hr0]
    rw [if_neg (not_not_intro hnm)]
    by_cases hpm : re_match_phone phone = true
    · rw [if_neg (not_not_intro hpm)]
      simp only [hpm, not_true, iff_false]
      repeat' split
      all_goals simp
    · rw [if_pos hpm]
      simp [hpm]
  constructor
  · rw [hkey]
    exact not_congr (re_match_phone_iff phone)
  · intro hinv
    rcases submit_form_state_or_success st (some p) with h1 | h1
    · exact h1
    · rw [hinv] at h1
      exact absurd h1 (by simp [SubmitResult.isSuccess])

/-- Witness for C6 as amended: `"1234567a"` is rejected with the
invalid-phone error. -/
theorem C6_witness :
    (submit_form freshState
        (some { mkPayload "Aa" with phone := some "1234567a" })).2 =
      .invalidPhone :=
  (C6_phone_amended freshState
    { mkPayload "Aa" with phone := some "1234567a" }
    "Aa" "1234567a" "School" ["Cleaning Robot"] (by decide) rfl rfl rfl rfl
    (by decide) (by decide) (by decide) (by decide)).1.mpr (by decide)

/-- C7: for a payload passing the quota and presence checks, the name field
fails with the invalid-name error exactly when it does not consist solely of
ASCII letters and `\s`-whitespace; an absent or empty name is rejected
earlier as a missing field. -/
theorem C7_name_field (st : FormState) (p : Payload)
    (phone school : String) (robots : List String)
    (hq : st.counter.count < st.counter.max_submissions)
    (hp : p.phone = some phone) (hphone0 : phone ≠ "")
    (hs : p.school_name = some school) (hs0 : school ≠ "")
    (hr : p.selected_robots = some robots) (hr0 : robots ≠ []) :
    ((p.name = none ∨ p.name = some "") →
       submit_form st (some p) = (st, .missingField "name")) ∧
    (∀ name, p.name = some name → name ≠ "" →
       ((submit_form st (some p)).2 = .invalidName ↔
         ¬ name.toList.all (fun c => isAsciiLetter c || isPySpace c))) := by
  constructor
  · intro hmiss0
    obtain ⟨pn, pp, pe, ps, pr⟩ := p
    have hq2 : ¬ st.counter.count ≥ st.counter.max_submissions := not_le.mpr hq
    have hpn : strPresent pn = false := by
      rcases hmiss0 with h | h <;> simp_all [strPresent]
    simp [submit_form, hq2, hpn]
  · intro name hn hname0
    have hname1 : name.toList ≠ [] := by
      intro h
      apply hname0
      apply String.ext
      simpa using h
    have hkey : (submit_form st (some p)).2 = .invalidName ↔
        ¬ re_match_name name = true := by
      rw [submit_form_unfold_checks st p name phone school robots hq hn hp hs
        hr hname0 hphone0 hs0 hr0]
      by_cases hnm : re_match_name name = true
      · rw [if_neg (not_not_intro hnm)]
        simp only [hnm, not_true, iff_false]
        repeat' split
        all_goals simp
      · rw [if_pos hnm]
        simp [hnm]
    rw [hkey, re_match_name_iff]
    constructor
    · intro h2 hall
      exact h2 ⟨hname1, hall⟩
    · intro h2 h3
      exact h2 h3.2

/-- Witness for C7: the name `"John3"` is rejected with the invalid-name
error, and an absent name is rejected as a missing field. -/
theorem C7_witness :
    (submit_form freshState
        (some { mkPayload "Aa" with name := some "John3" })).2 =
      .invalidName ∧
    submit_form freshState (some { mkPayload "Aa" with name := none }) =
      (freshState, .missingField "name") := by
  constructor
  · exact ((C7_name_field freshState
      { mkPayload "Aa" with name := some "John3" }
      "12345678" "School" ["Cleaning Robot"] (by decide) rfl (by decide) rfl
      (by decide) rfl (by decide)).2 "John3" rfl (by decide)).mpr (by decide)
  · exact (C7_name_field freshState { mkPayload "Aa" with name := none }
      "12345678" "School" ["Cleaning Robot"] (by decide) rfl (by decide) rfl
      (by decide) rfl (by decide)).1 (Or.inl rfl)

/-- Refutation of C8 as stated: a present but blank email `" "` is blank
after trimming and the submit is accepted, but the stored email is the raw
`" "`, not the empty string. -/
theorem C8_counterexample :
    (submit_form freshState
        (some { mkPayload "Aa" with email := some " " })).2.isSuccess = true ∧
    (submit_form freshState
        (some { mkPayload "Aa" with email := some " " })).1.records =
      [{ id := 1, name := "Aa", phone := "12345678", email := " ",
         school_name := "School", selected_robots := "Cleaning Robot" }] ∧
    pyStrip " " = "" ∧ (" " : String) ≠ "" := by
  exact ⟨by decide, by decide, by decide, by decide⟩

/-- C8 as amended: for a payload passing the earlier checks, an email that is
omitted or blank after trimming, or whose trimmed value contains an at sign,
is accepted — with the email stored exactly as provided (so empty only when
omitted or given empty) — while a trimmed non-empty email without an at sign
fails with the invalid-email error. -/
theorem C8_email_amended (st : FormState) (p : Payload)
    (name phone school : String) (robots : List String)
    (hq : st.counter.count < st.counter.max_submissions)
    (hn : p.name = some name) (hp : p.phone = some phone)
    (hs : p.school_name = some school) (hr : p.selected_robots = some robots)
    (hnm : re_match_name name = true) (hpm : re_match_phone phone = true)
    (hs0 : school ≠ "") (hr0 : robots ≠ [])
    (hra : ∀ r ∈ robots, allowed_robots.contains r = true) :
    ((pyStrip (p.email.getD "") = "" ∨
        pyContains (pyStrip (p.email.getD "")) '@' = true) →
       submit_form st (some p) =
         ({ records := st.records ++
              [{ id := st.records.length + 1, name := name, phone := phone,
                 email := p.email.getD "", school_name := school,
                 selected_robots := String.intercalate ", " robots }],
            counter := update_counter (st.counter.count + 1) },
          .success (st.records.length + 1)
            { count := st.counter.count + 1,
              max_submissions := st.counter.max_submissions,
              submissions_remaining :=
                (st.counter.max_submissions : Int) -
                  ((st.counter.count + 1 : Nat) : Int),
              is_limit_reached :=
                decide (st.counter.count + 1 ≥
                  st.counter.max_submissions) })) ∧
    (pyStrip (p.email.getD "") ≠ "" →
       pyContains (pyStrip (p.email.getD "")) '@' = false →
       submit_form st (some p) = (st, .invalidEmail)) := by
  constructor
  · intro he
    exact submit_form_success st p name phone school robots hq hn hp hs hr
      hnm hpm hs0 he hr0 hra
  · intro hne hnc
    have hname0 : name ≠ "" := re_match_name_ne_empty hnm
    have hphone0 : phone ≠ "" := re_match_phone_ne_empty hpm
    rw [submit_form_unfold_checks st p name phone school robots hq hn hp hs
      hr hname0 hphone0 hs0 hr0]
    rw [if_neg (not_not_intro hnm), if_neg (not_not_intro hpm),
      if_pos ⟨hne, by simp [hnc]⟩]

/-- Witness for C8 as amended: an omitted email is accepted and stored empty;
`"a.b.com"` is rejected with the invalid-email error. -/
theorem C8_witness :
    submit_form freshState (some (mkPayload "Aa")) =
      ({ records := [{ id := 1, name := "Aa", phone := "12345678",
                       email := "", school_name := "School",
                       selected_robots := "Cleaning Robot" }],
         counter := { count := 1, max_submissions := 10 } },
       .success 1 { count := 1, max_submissions := 10,
                    submissions_remaining := 9, is_limit_reached := false }) ∧
    submit_form freshState
        (some { mkPayload "Aa" with email := some "a.b.com" }) =
      (freshState, .invalidEmail) := by
  constructor
  · rw [(C8_email_amended freshState (mkPayload "Aa") "Aa" "12345678"
      "School" ["Cleaning Robot"] (by decide) rfl rfl rfl rfl (by decide)
      (by decide) (by decide) (by decide) (by decide)).1 (Or.inl (by decide))]
    rfl
  · exact (C8_email_amended freshState
      { mkPayload "Aa" with email := some "a.b.com" } "Aa" "12345678"
      "School" ["Cleaning Robot"] (by decide) rfl rfl rfl rfl (by decide)
      (by decide) (by decide) (by decide) (by decide)).2 (by decide) (by decide)

/-- Refutation of C9 as stated: a reset without a credential and a reset with
a wrong credential both fail, but with different responses (different message
and different HTTP status), so the error response does reveal missing versus
mismatched. -/
theorem C9_counterexample :
    reset_counter { count := 3, max_submissions := 10 } none =
      ({ count := 3, max_submissions := 10 }, .missingPassword) ∧
    reset_counter { count := 3, max_submissions := 10 }
        (some { password := some "wrong" }) =
      ({ count := 3, max_submissions := 10 }, .authError) ∧
    resetMessage .missingPassword ≠ resetMessage .authError ∧
    resetStatus .missingPassword ≠ resetStatus .authError := by
  exact ⟨by decide, by decide, by decide, by decide⟩

/-- C9 as amended: every failed reset with a supplied credential reports the
same generic incorrect-password error (401), whatever the wrong value was, so
nothing about the supplied value leaks; but a missing credential is reported
distinctly (400, different message), so missing versus mismatched is
distinguishable. -/
theorem C9_auth_error_amended (c : Counter) (pw : String)
    (h : pw ≠ "25485650") :
    reset_counter c (some { password := some pw }) = (c, .authError) ∧
    resetMessage .authError = "Incorrect password" ∧
    resetStatus .authError = 401 ∧
    reset_counter c none = (c, .missingPassword) ∧
    reset_counter c (some { password := none }) = (c, .missingPassword) ∧
    resetMessage .missingPassword ≠ resetMessage .authError ∧
    resetStatus .missingPassword ≠ resetStatus .authError := by
  refine ⟨?_, rfl, rfl, rfl, rfl, by decide, by decide⟩
  simp [reset_counter, h]

/-- Witness for C9 as amended, at the counter 3 of 10 and password `"wrong"`. -/
theorem C9_witness :
    reset_counter { count := 3, max_submissions := 10 }
        (some { password := some "wrong" }) =
      ({ count := 3, max_submissions := 10 }, .authError) :=
  (C9_auth_error_amended { count := 3, max_submissions := 10 } "wrong"
    (by decide)).1

/-- C10: the id of an accepted submission is the stored row count plus one,
never read from the quota counter; reset never touches the record store; so
after a reset the next accepted submission continues the ids strictly upward
(concretely: with ten stored rows and the gate closed, a submit fails, and
after a password reset the next accepted submission gets id 11, leaving more
rows in the store than the quota max). -/
theorem C10_ids_from_store :
    (∀ (st : FormState) (data : Option Payload) (id : Nat)
        (snap : CounterSnapshot),
        (submit_form st data).2 = .success id snap →
        id = st.records.length + 1) ∧
    (∀ (st : FormState) (d : Option ResetPayload),
        (reset_route st d).1.records = st.records) ∧
    ((submit_form fullState (some (mkPayload "Ak"))).2.isSuccess = false ∧
     (reset_route fullState (some { password := some "25485650" })).1 =
       { records := fullState.records,
         counter := { count := 0, max_submissions := 10 } } ∧
     (submit_form
         { records := fullState.records,
           counter := { count := 0, max_submissions := 10 } }
         (some (mkPayload "Ak"))).2 =
       .success 11 { count := 1, max_submissions := 10,
                     submissions_remaining := 9, is_limit_reached := false } ∧
     (submit_form
         { records := fullState.records,
           counter := { count := 0, max_submissions := 10 } }
         (some (mkPayload "Ak"))).1.records.length = 11 ∧
     11 > fullState.counter.max_submissions) := by
  refine ⟨fun st data id snap h => submit_form_success_id st data id snap h,
    fun st d => rfl, ?_⟩
  exact ⟨by decide, by decide, by decide, by decide, by decide⟩

/-- Witness for C10: the first accepted submission in a fresh state has id
0 + 1 = 1. -/
theorem C10_witness :
    (1 : Nat) = freshState.records.length + 1 :=
  C10_ids_from_store.1 freshState (some (mkPayload "Aa")) 1
    { count := 1, max_submissions := 10, submissions_remaining := 9,
      is_limit_reached := false } (by decide)

end Form
